import Mathlib

/-!
Verification of the annotation-canvas subsystem of the gautami hospital
application. The drawing widget exists in several revisions in the
repository; each revision that a claim refers to is embedded in its own
namespace:

* `Tsx`     — src/components/prescription-canvas.tsx (fixed 800 x 1100
  logical canvas, CSS-transform pan/zoom, no stroke history).
* `Part004` — src/unnamed/part_004 (stroke history `actions`/`redos`,
  live ink painting, compositing save).
* `Part003` — first component in src/unnamed/part_003 (fixed logical
  canvas, touch-only pan/zoom with minScale 0.3 and maxScale 5).
* `Part003H` — second component in src/unnamed/part_003 (stroke history
  `actions`/`redoActions`, button zoom).

Floating-point numbers of the source are modelled as rationals; the DOM
raster surfaces are modelled as lists of painted segments where a claim
needs them.
-/

/-- Point with rational coordinates, the shape of the `{ x, y }` objects
used throughout the source. -/
structure Pt where
  x : ℚ
  y : ℚ
deriving DecidableEq, Repr

/-- Painted line segment on a raster surface (one `lineTo` + `stroke`). -/
structure Seg where
  a : Pt
  b : Pt
deriving DecidableEq, Repr

/-- Ink tool of a recorded stroke: the source type is the union
`"pen" | "eraser"` (field `tool` of `DrawAction` in part_003 and
part_004). -/
inductive InkTool
  | pen
  | eraser
deriving DecidableEq, Repr

/-- Line-cap style: source type `PenStyle = "round" | "square" | "butt"`. -/
inductive PenStyle
  | round
  | square
  | butt
deriving DecidableEq, Repr

/-- Recorded stroke, the `DrawAction` interface declared identically in
part_003 (second component) and part_004. -/
structure DrawAction where
  tool : InkTool
  points : List Pt
  color : String
  lineWidth : ℚ
  penStyle : PenStyle
deriving DecidableEq, Repr

/-- Segments of the polyline that joins consecutive points of a list
(`moveTo` the head, then `lineTo` each following point). -/
def consecSegs (l : List Pt) : List Seg :=
  (l.zip l.tail).map fun q => ⟨q.1, q.2⟩

namespace Part004

/-- Selectable tool of the part_004 revision:
`type DrawingTool = "pen" | "eraser" | "move"`. -/
inductive DrawingTool
  | pen
  | eraser
  | move
deriving DecidableEq, Repr

/-- Narrowing of the component tool to the stroke tool. `startDraw`
returns before building a stroke when the tool is `move`, so the `move`
case is unreachable there; it is mapped to `pen` only to make the
function total. -/
def DrawingTool.toInk : DrawingTool → InkTool
  | .pen => .pen
  | .eraser => .eraser
  | .move => .pen

/-- Component state of the part_004 revision (the `useState` hooks) plus
`canvasInk`, the list of segments currently painted on the drawing
canvas raster. -/
structure State where
  isDrawing : Bool
  color : String
  lineWidth : ℚ
  tool : DrawingTool
  penStyle : PenStyle
  bgReady : Bool
  zoom : ℚ
  pan : Pt
  actions : List DrawAction
  current : Option DrawAction
  redos : List DrawAction
  lastMouse : Pt
  touchDist : Option ℚ
  isTwoFingerPan : Bool
  canvasInk : List Seg
deriving DecidableEq, Repr

/-- Function `toCanvas`: screen position to logical canvas position,
`x = (sx - pan.x) / zoom` and likewise for y. -/
def toCanvas (s : State) (sx sy : ℚ) : Pt :=
  ⟨(sx - s.pan.x) / s.zoom, (sy - s.pan.y) / s.zoom⟩

/-- Segments painted by `redrawStrokes` for one action: actions with
fewer than 2 points are skipped (`if (a.points.length < 2) return`),
otherwise the polyline through its points is stroked. -/
def segsOf (a : DrawAction) : List Seg :=
  if a.points.length < 2 then [] else consecSegs a.points

/-- Content of the drawing canvas after `redrawStrokes` repaints it from
a committed-action list (it clears the surface first). `redrawStrokes`
runs as an effect whenever `actions`, `zoom` or `pan` change; the state
transitions below apply it exactly at those points. -/
def replay (acts : List DrawAction) : List Seg :=
  acts.flatMap segsOf

/-- One-point `DrawAction` built at the start of a stroke in `startDraw`
(eraser strokes are recorded white and double width). -/
def newAction (s : State) (sx sy : ℚ) : DrawAction :=
  { tool := s.tool.toInk
    points := [toCanvas s sx sy]
    color := if s.tool = .eraser then "#fff" else s.color
    lineWidth := if s.tool = .eraser then s.lineWidth * 2 else s.lineWidth
    penStyle := s.penStyle }

/-- Function `startDraw`: for tool `move` just records the pointer
position; otherwise (given a context and a ready background) begins a
stroke: builds the one-point `DrawAction`, clears the redo stack, and
opens a path (`beginPath`/`moveTo` paint no ink). -/
def startDraw (sx sy : ℚ) (s : State) : State :=
  if s.tool = .move then { s with lastMouse := ⟨sx, sy⟩ }
  else if s.bgReady = false then s
  else { s with isDrawing := true, current := some (newAction s sx sy), redos := [] }

/-- Function `moveDraw`: pans when the tool is `move` and no drawing is
active (the pan change triggers the `redrawStrokes` effect); otherwise,
while a stroke is active, appends the logical point to the in-progress
action and paints the segment from the previous path position onto the
canvas (`lineTo`/`stroke`). -/
def moveDraw (sx sy : ℚ) (s : State) : State :=
  if s.tool = .move ∧ s.isDrawing = false then
    { s with pan := ⟨s.pan.x + (sx - s.lastMouse.x), s.pan.y + (sy - s.lastMouse.y)⟩
             lastMouse := ⟨sx, sy⟩
             canvasInk := replay s.actions }
  else if s.isDrawing = false then s
  else
    match s.current with
    | none => s
    | some a =>
      let p := toCanvas s sx sy
      let painted : List Seg :=
        match a.points.getLast? with
        | some q => [⟨q, p⟩]
        | none => []
      { s with current := some { a with points := a.points ++ [p] }
               canvasInk := s.canvasInk ++ painted }

/-- Function `endDraw`: if a stroke is active, close it; the action is
appended to `actions` exactly when it has more than one point (which
then triggers the `redrawStrokes` repaint); `isTwoFingerPan` is reset. -/
def endDraw (s : State) : State :=
  if s.isDrawing = false then s
  else
    match s.current with
    | none => s
    | some c =>
      if 1 < c.points.length then
        { s with isDrawing := false
                 actions := s.actions ++ [c]
                 current := none
                 isTwoFingerPan := false
                 canvasInk := replay (s.actions ++ [c]) }
      else
        { s with isDrawing := false, current := none, isTwoFingerPan := false }

/-- Handler `onTouchStart` with a single touch at canvas-relative
position p: delegates to `startDraw`. -/
def onTouchStartOne (p : Pt) (s : State) : State :=
  startDraw p.x p.y s

/-- Handler `onTouchStart` with two touches: records the inter-touch
distance (`Math.hypot`, taken here as the measured value d since a
square root is in general irrational) and the touch midpoint, and sets
`isTwoFingerPan`. It does not touch `isDrawing` or `current`. -/
def onTouchStartTwo (mid : Pt) (d : ℚ) (s : State) : State :=
  { s with touchDist := some d, isTwoFingerPan := true, lastMouse := mid }

/-- Handler `onTouchMove` with a single touch: draws only when no
two-finger pan is active. -/
def onTouchMoveOne (p : Pt) (s : State) : State :=
  if s.isTwoFingerPan then s else moveDraw p.x p.y s

/-- Handler `onTouchMove` with two touches at midpoint mid and measured
distance nd: a zoom step (factor 1.02 or 0.98, clamped to 0.5..3) when
the distance moved more than 5, a pan update when the midpoint moved
more than 2, then the distance and midpoint baselines are refreshed.
Changing `zoom` or `pan` triggers the `redrawStrokes` repaint. -/
def onTouchMoveTwo (mid : Pt) (nd : ℚ) (s : State) : State :=
  match s.touchDist with
  | none => { s with touchDist := some nd, lastMouse := mid }
  | some td =>
    let s1 :=
      if 5 < |nd - td| then
        let newZoom := min (max (s.zoom * (if td < nd then 102/100 else 98/100)) (1/2)) 3
        if s.zoom = newZoom then s
        else
          { s with pan := ⟨s.pan.x + (mid.x - s.lastMouse.x), s.pan.y + (mid.y - s.lastMouse.y)⟩
                   zoom := newZoom
                   canvasInk := replay s.actions }
      else s
    let s2 :=
      if s1.isTwoFingerPan ∧ (2 < |mid.x - s1.lastMouse.x| ∨ 2 < |mid.y - s1.lastMouse.y|) then
        { s1 with pan := ⟨s1.pan.x + (mid.x - s1.lastMouse.x), s1.pan.y + (mid.y - s1.lastMouse.y)⟩
                  canvasInk := replay s1.actions }
      else s1
    { s2 with touchDist := some nd, lastMouse := mid }

/-- Function `undo`: no-op on an empty history; otherwise moves the last
action onto the redo stack and repaints. -/
def undo (s : State) : State :=
  match s.actions.getLast? with
  | none => s
  | some a =>
    { s with redos := s.redos ++ [a]
             actions := s.actions.dropLast
             canvasInk := replay s.actions.dropLast }

/-- Function `redo`: no-op on an empty redo stack; otherwise moves the
last redo entry back onto the history and repaints. -/
def redo (s : State) : State :=
  match s.redos.getLast? with
  | none => s
  | some a =>
    { s with actions := s.actions ++ [a]
             redos := s.redos.dropLast
             canvasInk := replay (s.actions ++ [a]) }

/-- Function `clearCanvas`: after the confirm dialog, clears the canvas
raster and empties both stacks (the emptied `actions` then repaint to an
empty raster). -/
def clearCanvas (confirm : Bool) (s : State) : State :=
  if confirm then { s with actions := [], redos := [], canvasInk := [] }
  else s

/-- Ink content that `save` composites into the export bitmap: `save`
draws `bgRef` and then the drawing canvas `canvasRef` into a temporary
canvas and encodes that, so every segment currently painted on the
drawing canvas appears in the exported bitmap. -/
def exportInk (s : State) : List Seg :=
  s.canvasInk

/-- Repeated `moveDraw` over a list of screen positions. -/
def moveDraws (ps : List Pt) (s : State) : State :=
  ps.foldl (fun t p => moveDraw p.x p.y t) s

/-- One full single-pointer drawing gesture: pointer down at p, moves
over ps, pointer up. -/
def drawGesture (p : Pt) (ps : List Pt) (s : State) : State :=
  endDraw (moveDraws ps (startDraw p.x p.y s))

/-- Component state once the letterhead has loaded, with the `useState`
initial values of the source otherwise. -/
def readyState : State :=
  { isDrawing := false, color := "#000000", lineWidth := 2, tool := .pen
    penStyle := .round, bgReady := true, zoom := 1, pan := ⟨0, 0⟩
    actions := [], current := none, redos := [], lastMouse := ⟨0, 0⟩
    touchDist := none, isTwoFingerPan := false, canvasInk := [] }

end Part004

namespace Part003H

/-- Component state of the second component in part_003 (the dialog
revision with a stroke history). The canvas rasters of this revision are
not modelled: no claim concerns them here. -/
structure State where
  isDrawing : Bool
  isPanning : Bool
  color : String
  lineWidth : ℚ
  tool : InkTool
  penStyle : PenStyle
  letterheadLoaded : Bool
  zoom : ℚ
  panOffset : Pt
  actions : List DrawAction
  currentAction : Option DrawAction
  redoActions : List DrawAction
  lastMousePos : Pt
deriving DecidableEq, Repr

/-- Function `startPanning`: requires a loaded letterhead, then marks
panning active and records the pointer position. -/
def startPanning (x y : ℚ) (s : State) : State :=
  if s.letterheadLoaded = false then s
  else { s with isPanning := true, lastMousePos := ⟨x, y⟩ }

/-- Function `startDrawing`: requires a context and a loaded letterhead;
with shift held or panning active it delegates to `startPanning`;
otherwise it starts the one-point `DrawAction` at the inverse-transformed
position `(x - panOffset) / zoom` and clears the redo stack. -/
def startDrawing (shift : Bool) (x y : ℚ) (s : State) : State :=
  if s.letterheadLoaded = false then s
  else if shift = true ∨ s.isPanning = true then startPanning x y s
  else
    let adj : Pt := ⟨(x - s.panOffset.x) / s.zoom, (y - s.panOffset.y) / s.zoom⟩
    { s with isDrawing := true
             currentAction := some
               { tool := s.tool
                 points := [adj]
                 color := if s.tool = .eraser then "#ffffff" else s.color
                 lineWidth := if s.tool = .eraser then s.lineWidth * 2 else s.lineWidth
                 penStyle := s.penStyle }
             redoActions := [] }

/-- Function `doPanning`: while panning with a loaded letterhead, adds
the pointer delta to the pan offset and updates the recorded position. -/
def doPanning (x y : ℚ) (s : State) : State :=
  if s.isPanning = false ∨ s.letterheadLoaded = false then s
  else
    { s with panOffset := ⟨s.panOffset.x + (x - s.lastMousePos.x), s.panOffset.y + (y - s.lastMousePos.y)⟩
             lastMousePos := ⟨x, y⟩ }

/-- Function `draw`: pans when panning is active; otherwise, while a
stroke is active, appends the inverse-transformed point to the current
action (the segment is stroked on the raster, which is not modelled in
this revision). -/
def draw (x y : ℚ) (s : State) : State :=
  if s.isPanning = true then doPanning x y s
  else if s.isDrawing = false ∨ s.letterheadLoaded = false then s
  else
    match s.currentAction with
    | none => s
    | some c =>
      let adj : Pt := ⟨(x - s.panOffset.x) / s.zoom, (y - s.panOffset.y) / s.zoom⟩
      { s with currentAction := some { c with points := c.points ++ [adj] } }

/-- Function `stopDrawing`: ends panning if panning was active; otherwise
closes the stroke, appending it to `actions` exactly when it has more
than one point. -/
def stopDrawing (s : State) : State :=
  if s.isPanning = true then { s with isPanning := false }
  else
    match s.currentAction with
    | none => s
    | some c =>
      { s with isDrawing := false
               actions := if 1 < c.points.length then s.actions ++ [c] else s.actions
               currentAction := none }

/-- Function `handleUndo`: no-op on an empty history; otherwise moves the
last action onto the redo stack. -/
def handleUndo (s : State) : State :=
  match s.actions.getLast? with
  | none => s
  | some a => { s with redoActions := s.redoActions ++ [a], actions := s.actions.dropLast }

/-- Function `handleRedo`: no-op on an empty redo stack; otherwise moves
the last redo entry back onto the history. -/
def handleRedo (s : State) : State :=
  match s.redoActions.getLast? with
  | none => s
  | some a => { s with actions := s.actions ++ [a], redoActions := s.redoActions.dropLast }

/-- Function `clearCanvas`: after the confirm dialog, clears the drawing
canvas and empties both stacks. -/
def clearCanvas (confirm : Bool) (s : State) : State :=
  if confirm then { s with actions := [], redoActions := [] }
  else s

/-- Repeated `draw` over a list of positions. -/
def draws (ps : List Pt) (s : State) : State :=
  ps.foldl (fun t p => draw p.x p.y t) s

/-- One full drawing gesture without shift: pointer down, moves, pointer
up. -/
def drawGesture (p : Pt) (ps : List Pt) (s : State) : State :=
  stopDrawing (draws ps (startDrawing false p.x p.y s))

/-- Component state once the letterhead has loaded, with the `useState`
initial values of the source otherwise. -/
def readyState : State :=
  { isDrawing := false, isPanning := false, color := "#000000", lineWidth := 2
    tool := .pen, penStyle := .round, letterheadLoaded := true, zoom := 1
    panOffset := ⟨0, 0⟩, actions := [], currentAction := none
    redoActions := [], lastMousePos := ⟨0, 0⟩ }

end Part003H

namespace Tsx

/-- Selectable tool of the prescription-canvas.tsx revision:
`type DrawingTool = "pen" | "eraser" | "pan"`. -/
inductive DrawingTool
  | pen
  | eraser
  | pan
deriving DecidableEq, Repr

/-- Component state of prescription-canvas.tsx. The mount effect fixes
the logical canvas size (`canvas.width = 800; canvas.height = 1100`);
pan and zoom are presented purely through a CSS transform. The ink
raster of this revision is not modelled: it has no stroke history and no
claim concerns its raster content. -/
structure State where
  width : ℕ
  height : ℕ
  isDrawing : Bool
  color : String
  lineWidth : ℚ
  tool : DrawingTool
  letterheadLoaded : Bool
  scale : ℚ
  panOffset : Pt
  lastPanPosition : Pt
  initialPinchDistance : Option ℚ
  initialPinchLogicalMidpoint : Option Pt
deriving DecidableEq, Repr

/-- State right after the mount effect, with the `useState` initial
values of the source. -/
def initState : State :=
  { width := 800, height := 1100, isDrawing := false, color := "#000000"
    lineWidth := 2, tool := .pen, letterheadLoaded := false, scale := 1
    panOffset := ⟨0, 0⟩, lastPanPosition := ⟨0, 0⟩
    initialPinchDistance := none, initialPinchLogicalMidpoint := none }

/-- Value of `canvas.getBoundingClientRect()` top-left corner: the CSS
transform `translate(panOffset) scale(scale)` with transform-origin
`0 0` places the element corner at its untransformed layout position L0
plus the pan offset (scaling about the corner does not move it). -/
def rectTopLeft (L0 : Pt) (s : State) : Pt :=
  ⟨L0.x + s.panOffset.x, L0.y + s.panOffset.y⟩

/-- Function `getLogicalCoords`: subtracts the transformed element
corner from the client position and divides by the scale. -/
def getLogicalCoords (L0 : Pt) (s : State) (clientX clientY : ℚ) : Pt :=
  ⟨(clientX - (rectTopLeft L0 s).x) / s.scale, (clientY - (rectTopLeft L0 s).y) / s.scale⟩

/-- Modelled from the spec: the forward view map (spec section 3,
ViewTransform) as rendered by the browser for this revision, which is
not code under src. A logical point l of the canvas is shown at the
transformed element corner plus l scaled, so with a layout origin of
(0, 0) this is exactly the map (lx * scale + panX, ly * scale + panY)
given in the spec. -/
def toViewport (L0 : Pt) (s : State) (l : Pt) : Pt :=
  ⟨(rectTopLeft L0 s).x + l.x * s.scale, (rectTopLeft L0 s).y + l.y * s.scale⟩

/-- Handler `handleWheel`: zoom step of factor 1.1 toward or away from
the cursor; the new scale is `max(0.5, min(3, scale * delta))` and the
new pan offset is set to `cursorClient - logicalCursor * newScale`
(source lines 281 to 287). -/
def handleWheel (L0 : Pt) (deltaY clientX clientY : ℚ) (s : State) : State :=
  let delta : ℚ := if 0 < deltaY then 10 / 11 else 11 / 10
  let l := getLogicalCoords L0 s clientX clientY
  let newScale := max (1 / 2) (min 3 (s.scale * delta))
  { s with scale := newScale
           panOffset := ⟨clientX - l.x * newScale, clientY - l.y * newScale⟩ }

/-- Handler `startDrawing` (mouse): requires a context and a loaded
letterhead; marks drawing active; the pan tool records the client
position, pen and eraser open a path on the raster (raster not
modelled). -/
def startDrawing (clientX clientY : ℚ) (s : State) : State :=
  if s.letterheadLoaded = false then s
  else if s.tool = .pan then { s with isDrawing := true, lastPanPosition := ⟨clientX, clientY⟩ }
  else { s with isDrawing := true }

/-- Handler `draw` (mouse move): with the pan tool, adds the client
delta to the pan offset; pen and eraser stroke the raster (raster not
modelled). -/
def draw (clientX clientY : ℚ) (s : State) : State :=
  if s.isDrawing = false ∨ s.letterheadLoaded = false then s
  else if s.tool = .pan then
    { s with panOffset := ⟨s.panOffset.x + (clientX - s.lastPanPosition.x), s.panOffset.y + (clientY - s.lastPanPosition.y)⟩
             lastPanPosition := ⟨clientX, clientY⟩ }
  else s

/-- Handler `stopDrawing`: ends the gesture and resets the pan and pinch
tracking references. -/
def stopDrawing (s : State) : State :=
  { s with isDrawing := false
           lastPanPosition := ⟨0, 0⟩
           initialPinchDistance := none
           initialPinchLogicalMidpoint := none }

/-- Handler `handleTouchStart` with one touch: marks drawing active and
records the touch position (pen and eraser also open a path on the
raster). -/
def handleTouchStartOne (p : Pt) (s : State) : State :=
  if s.letterheadLoaded = false then s
  else { s with isDrawing := true, lastPanPosition := p }

/-- Handler `handleTouchStart` with two touches: stops drawing, records
the measured inter-touch distance d, the logical point under the touch
midpoint, and the midpoint itself. -/
def handleTouchStartTwo (L0 : Pt) (mid : Pt) (d : ℚ) (s : State) : State :=
  if s.letterheadLoaded = false then s
  else
    { s with isDrawing := false
             initialPinchDistance := some d
             initialPinchLogicalMidpoint := some (getLogicalCoords L0 s mid.x mid.y)
             lastPanPosition := mid }

/-- Handler `handleTouchMove` with one touch and the pan tool active:
adds the touch delta to the pan offset. (With pen or eraser the move
strokes the raster, not modelled; with `isDrawing` false it is a
defensive no-op, as in the source.) -/
def handleTouchMoveOnePan (p : Pt) (s : State) : State :=
  if s.letterheadLoaded = false then s
  else if s.tool = .pan ∧ s.isDrawing = true then
    { s with panOffset := ⟨s.panOffset.x + (p.x - s.lastPanPosition.x), s.panOffset.y + (p.y - s.lastPanPosition.y)⟩
             lastPanPosition := p }
  else s

/-- Handler `handleTouchMove` with two touches at midpoint mid and
measured distance d: the scale becomes
`max(0.5, min(3, scale * (d / initialDistance)))` and the pan offset is
set to `mid - initialLogicalMidpoint * newScale`; the distance baseline
is refreshed. A zero recorded distance is treated as a no-op here: in
the source it divides to an IEEE infinity, which only arises from two
touches at the exact same position and is not representable over the
rationals. -/
def handleTouchMoveTwo (mid : Pt) (d : ℚ) (s : State) : State :=
  if s.letterheadLoaded = false then s
  else
    match s.initialPinchDistance, s.initialPinchLogicalMidpoint with
    | some d0, some lm =>
      if d0 = 0 then s
      else
        let newScale := max (1 / 2) (min 3 (s.scale * (d / d0)))
        { s with scale := newScale
                 panOffset := ⟨mid.x - lm.x * newScale, mid.y - lm.y * newScale⟩
                 initialPinchDistance := some d }
    | _, _ => s

/-- Handler `handleTouchEnd`: with no remaining touches, full
`stopDrawing`; with touches remaining, drawing continues only as a pan
with exactly one touch and the pan tool, the last position is updated,
and the pinch references are reset. -/
def handleTouchEnd (remaining : ℕ) (p : Pt) (s : State) : State :=
  if remaining = 0 then stopDrawing s
  else
    { s with isDrawing := decide (remaining = 1 ∧ s.tool = .pan)
             lastPanPosition := if remaining = 1 then p else ⟨0, 0⟩
             initialPinchDistance := none
             initialPinchLogicalMidpoint := none }

/-- Function `clearCanvas`: after the confirm dialog the raster is
cleared and the letterhead reloaded (raster not modelled), and the view
transform is reset: scale 1 and pan offset (0, 0) (source lines 450 to
452). -/
def clearCanvas (confirm : Bool) (s : State) : State :=
  if confirm then { s with scale := 1, panOffset := ⟨0, 0⟩ }
  else s

/-- Completion of the letterhead load (onload or onerror both mark the
background ready). -/
def bgLoaded (s : State) : State :=
  { s with letterheadLoaded := true }

/-- Dimensions of the bitmap produced by `handleSaveClick`:
`canvasRef.current.toBlob` captures the logical canvas raster, whose
pixel dimensions are the canvas width and height attributes; the CSS
pan and zoom transform is presentation only. -/
def exportDims (s : State) : ℕ × ℕ :=
  (s.width, s.height)

/-- Events the component reacts to, with the measurements each handler
extracts from the DOM event. -/
inductive Op
  | bgLoad
  | setTool (t : DrawingTool)
  | wheel (L0 : Pt) (deltaY clientX clientY : ℚ)
  | mouseDown (clientX clientY : ℚ)
  | mouseMove (clientX clientY : ℚ)
  | mouseUp
  | touchStartOne (p : Pt)
  | touchStartTwo (L0 : Pt) (mid : Pt) (d : ℚ)
  | touchMoveOne (p : Pt)
  | touchMoveTwo (mid : Pt) (d : ℚ)
  | touchEnd (remaining : ℕ) (p : Pt)
  | clear (confirm : Bool)

/-- Dispatch of one event to its handler. -/
def step : Op → State → State
  | .bgLoad => bgLoaded
  | .setTool t => fun s => { s with tool := t }
  | .wheel L0 dy cx cy => handleWheel L0 dy cx cy
  | .mouseDown cx cy => startDrawing cx cy
  | .mouseMove cx cy => draw cx cy
  | .mouseUp => stopDrawing
  | .touchStartOne p => handleTouchStartOne p
  | .touchStartTwo L0 mid d => handleTouchStartTwo L0 mid d
  | .touchMoveOne p => handleTouchMoveOnePan p
  | .touchMoveTwo mid d => handleTouchMoveTwo mid d
  | .touchEnd n p => handleTouchEnd n p
  | .clear confirm => clearCanvas confirm

/-- A whole event sequence applied in delivery order. -/
def applyOps (ops : List Op) (s : State) : State :=
  ops.foldl (fun t op => step op t) s

end Tsx

namespace Part003

/-- Constant `minScale = 0.3` of the first component in part_003. -/
def minScale : ℚ := 3 / 10

/-- Constant `maxScale = 5` of the first component in part_003. -/
def maxScale : ℚ := 5

/-- A DOM bounding rectangle, as read from `getBoundingClientRect`. -/
structure Rect where
  left : ℚ
  top : ℚ
  width : ℚ
  height : ℚ
deriving DecidableEq, Repr

/-- Component state of the first component in part_003 (fixed logical
canvas of 800 x 1100, touch-only pan and zoom). The drawing raster is
not modelled: no claim concerns it in this revision. -/
structure State where
  isDrawing : Bool
  isPanning : Bool
  letterheadLoaded : Bool
  scale : ℚ
  panOffset : Pt
  lastPanPosition : Option Pt
  initialPinchDistance : Option ℚ
  initialPinchLogicalMidpoint : Option Pt
  initialPanOffset : Option Pt
  initialScale : Option ℚ
deriving DecidableEq, Repr

/-- State right after the mount effect, with the `useState` initial
values of the source. -/
def initState : State :=
  { isDrawing := false, isPanning := false, letterheadLoaded := false
    scale := 1, panOffset := ⟨0, 0⟩, lastPanPosition := none
    initialPinchDistance := none, initialPinchLogicalMidpoint := none
    initialPanOffset := none, initialScale := none }

/-- Function `getLogicalCoords` of this revision, on coordinates already
relative to the canvas rectangle: `(screen - panOffset) / scale`. -/
def getLogicalCoords (s : State) (screenX screenY : ℚ) : Pt :=
  ⟨(screenX - s.panOffset.x) / s.scale, (screenY - s.panOffset.y) / s.scale⟩

/-- Handler `handleTouchStart` with two touches: stops drawing, starts
panning, and records the midpoint, the current pan offset and scale, the
measured inter-touch distance d, and the logical point under the
midpoint (midpoint given relative to the canvas rectangle rect). -/
def handleTouchStartTwo (rect : Rect) (mid : Pt) (d : ℚ) (s : State) : State :=
  if s.letterheadLoaded = false then s
  else
    { s with isDrawing := false
             isPanning := true
             lastPanPosition := some mid
             initialPanOffset := some s.panOffset
             initialScale := some s.scale
             initialPinchDistance := some d
             initialPinchLogicalMidpoint := some (getLogicalCoords s (mid.x - rect.left) (mid.y - rect.top)) }

/-- Handler `handleTouchMove` with two touches while panning: the new
scale is `initialScale * (d / initialDistance)` clamped to
`[minScale, maxScale]` (source lines 272 to 274); the new pan offset
keeps the initial logical midpoint under the current midpoint and is
then bounded using the container rectangle when one is available. The
guard matches the falsiness checks of the source: a missing or zero
recorded distance or scale returns unchanged. -/
def handleTouchMovePinch (canvasRect : Rect) (container : Option Rect) (mid : Pt) (d : ℚ)
    (s : State) : State :=
  if s.letterheadLoaded = false then s
  else if s.isPanning = false then s
  else
    match s.lastPanPosition, s.initialPinchDistance, s.initialPinchLogicalMidpoint,
        s.initialPanOffset, s.initialScale with
    | some _, some d0, some lm, some _, some sc0 =>
      if d0 = 0 ∨ sc0 = 0 then s
      else
        let newScale := max minScale (min maxScale (sc0 * (d / d0)))
        let midRelX := mid.x - canvasRect.left
        let midRelY := mid.y - canvasRect.top
        let newPanX := midRelX - lm.x * newScale
        let newPanY := midRelY - lm.y * newScale
        let pan2 : Pt :=
          match container with
          | some cr =>
            let maxPanX := max 0 (newScale * 800 - cr.width)
            let maxPanY := max 0 (newScale * 1100 - cr.height)
            ⟨max (-maxPanX) (min (cr.width * (1 / 2)) newPanX),
             max (-maxPanY) (min (cr.height * (1 / 2)) newPanY)⟩
          | none => ⟨newPanX, newPanY⟩
        { s with scale := newScale, panOffset := pan2, lastPanPosition := some mid }
    | _, _, _, _, _ => s

/-- Handler `handleTouchEnd`: with no remaining touches everything is
reset; with one remaining touch an active pinch drops its references. -/
def handleTouchEnd (remaining : ℕ) (s : State) : State :=
  if remaining = 0 then
    { s with isDrawing := false, isPanning := false, lastPanPosition := none
             initialPinchDistance := none, initialPinchLogicalMidpoint := none
             initialPanOffset := none, initialScale := none }
  else if remaining = 1 then
    if s.isPanning = true then
      { s with isPanning := false
               initialPinchDistance := none, initialPinchLogicalMidpoint := none
               initialPanOffset := none, initialScale := none }
    else s
  else s

/-- Function `clearCanvas` of this revision: after the confirm dialog
the logical canvas is cleared and the letterhead redrawn (raster not
modelled) and the view transform is reset: scale 1 and pan offset
(0, 0) (source lines 411 to 413). -/
def clearCanvas (confirm : Bool) (s : State) : State :=
  if confirm then { s with scale := 1, panOffset := ⟨0, 0⟩ }
  else s

/-- Completion of the letterhead load (onload or onerror both mark it
loaded). -/
def bgLoaded (s : State) : State :=
  { s with letterheadLoaded := true }

/-- Events that drive the view transform of this revision. The mouse
drawing handlers touch only `isDrawing` and the raster, never the
transform, and are omitted. -/
inductive Op
  | bgLoad
  | touchStartTwo (rect : Rect) (mid : Pt) (d : ℚ)
  | pinchMove (canvasRect : Rect) (container : Option Rect) (mid : Pt) (d : ℚ)
  | touchEnd (remaining : ℕ)
  | clear (confirm : Bool)

/-- Dispatch of one event to its handler. -/
def step : Op → State → State
  | .bgLoad => bgLoaded
  | .touchStartTwo rect mid d => handleTouchStartTwo rect mid d
  | .pinchMove cr c mid d => handleTouchMovePinch cr c mid d
  | .touchEnd n => handleTouchEnd n
  | .clear confirm => clearCanvas confirm

/-- A whole event sequence applied in delivery order. -/
def applyOps (ops : List Op) (s : State) : State :=
  ops.foldl (fun t op => step op t) s

end Part003

/-- A concrete committed stroke, the one of the scenario in spec
section 8: pen, red, width 3, points (10,10) and (50,50). -/
def stroke1 : DrawAction :=
  { tool := .pen, points := [⟨10, 10⟩, ⟨50, 50⟩], color := "#FF0000"
    lineWidth := 3, penStyle := .round }

/-- The part_004 component with exactly one committed stroke (its
raster repainted accordingly). -/
def Part004.oneStrokeState : Part004.State :=
  { Part004.readyState with actions := [stroke1], canvasInk := Part004.replay [stroke1] }

/-- The part_003 history component with exactly one committed stroke. -/
def Part003H.oneStrokeState : Part003H.State :=
  { Part003H.readyState with actions := [stroke1] }

/-- State of the part_004 component in the middle of a pen stroke:
pointer down at (10,10), one move to (50,50), pointer still down. -/
def Part004.midStrokeState : Part004.State :=
  Part004.onTouchMoveOne ⟨50, 50⟩ (Part004.onTouchStartOne ⟨10, 10⟩ Part004.readyState)

/-- Run of the part_004 pinch-interrupt scenario: a pen stroke is in
progress with two accumulated points when a second finger touches down
(two-touch onTouchStart at midpoint (100,100), measured distance 5);
then a finger lifts and onTouchEnd fires endDraw. -/
def Part004.pinchInterruptRun : Part004.State :=
  Part004.endDraw (Part004.onTouchStartTwo ⟨100, 100⟩ 5 Part004.midStrokeState)

/-- Concrete layout origin for the zoom-anchor scenario: the canvas
element sits 10 viewport units right and 20 down from the viewport
origin before any transform (toolbar above, centered container). -/
def Tsx.c8Layout : Pt := ⟨10, 20⟩

/-- Identity-transform state of prescription-canvas.tsx with the
letterhead loaded. -/
def Tsx.c8State : Tsx.State :=
  { Tsx.initState with letterheadLoaded := true }

/-- Logical point under the viewport cursor position (110,120) before
the wheel zoom. -/
def Tsx.c8Anchor : Pt :=
  Tsx.getLogicalCoords Tsx.c8Layout Tsx.c8State 110 120

/-- State after one wheel zoom-in step (deltaY negative) at viewport
cursor position (110,120). -/
def Tsx.c8After : Tsx.State :=
  Tsx.handleWheel Tsx.c8Layout (-1) 110 120 Tsx.c8State

theorem Part004.moveDraw_redos (sx sy : ℚ) (s : Part004.State) :
    (Part004.moveDraw sx sy s).redos = s.redos := by
  unfold Part004.moveDraw
  split
  · rfl
  · split
    · rfl
    · split
      · rfl
      · rfl

theorem Part004.moveDraw_actions (sx sy : ℚ) (s : Part004.State) :
    (Part004.moveDraw sx sy s).actions = s.actions := by
  unfold Part004.moveDraw
  split
  · rfl
  · split
    · rfl
    · split
      · rfl
      · rfl

theorem Part004.moveDraws_cons (p : Pt) (ps : List Pt) (s : Part004.State) :
    Part004.moveDraws (p :: ps) s = Part004.moveDraws ps (Part004.moveDraw p.x p.y s) := rfl

theorem Part004.moveDraws_redos (ps : List Pt) (s : Part004.State) :
    (Part004.moveDraws ps s).redos = s.redos := by
  induction ps generalizing s with
  | nil => rfl
  | cons p ps ih =>
    rw [Part004.moveDraws_cons, ih, Part004.moveDraw_redos]

theorem Part004.moveDraws_actions (ps : List Pt) (s : Part004.State) :
    (Part004.moveDraws ps s).actions = s.actions := by
  induction ps generalizing s with
  | nil => rfl
  | cons p ps ih =>
    rw [Part004.moveDraws_cons, ih, Part004.moveDraw_actions]

theorem Part004.endDraw_redos (s : Part004.State) :
    (Part004.endDraw s).redos = s.redos := by
  unfold Part004.endDraw
  split
  · rfl
  · split
    · rfl
    · split
      · rfl
      · rfl

theorem Part004.startDraw_eq (sx sy : ℚ) (s : Part004.State)
    (h1 : ¬ s.tool = .move) (h2 : s.bgReady = true) :
    Part004.startDraw sx sy s =
      { s with isDrawing := true, current := some (Part004.newAction s sx sy), redos := [] } := by
  unfold Part004.startDraw
  rw [if_neg h1, if_neg (by simp [h2])]

theorem Part004.redo_of_redos_nil (s : Part004.State) (h : s.redos = []) :
    Part004.redo s = s := by
  unfold Part004.redo
  rw [h]
  rfl

theorem Part004.undo_tool (s : Part004.State) : (Part004.undo s).tool = s.tool := by
  unfold Part004.undo
  split <;> rfl

theorem Part004.undo_bgReady (s : Part004.State) : (Part004.undo s).bgReady = s.bgReady := by
  unfold Part004.undo
  split <;> rfl

theorem Part003H.draw_redoActions (x y : ℚ) (s : Part003H.State) :
    (Part003H.draw x y s).redoActions = s.redoActions := by
  unfold Part003H.draw Part003H.doPanning
  split
  · split
    · rfl
    · rfl
  · split
    · rfl
    · split
      · rfl
      · rfl

theorem Part003H.draws_cons (p : Pt) (ps : List Pt) (s : Part003H.State) :
    Part003H.draws (p :: ps) s = Part003H.draws ps (Part003H.draw p.x p.y s) := rfl

theorem Part003H.draws_redoActions (ps : List Pt) (s : Part003H.State) :
    (Part003H.draws ps s).redoActions = s.redoActions := by
  induction ps generalizing s with
  | nil => rfl
  | cons p ps ih =>
    rw [Part003H.draws_cons, ih, Part003H.draw_redoActions]

theorem Part003H.stopDrawing_redoActions (s : Part003H.State) :
    (Part003H.stopDrawing s).redoActions = s.redoActions := by
  unfold Part003H.stopDrawing
  split
  · rfl
  · split
    · rfl
    · rfl

theorem Part003H.startDrawing_redoActions (x y : ℚ) (s : Part003H.State)
    (g1 : s.letterheadLoaded = true) (g2 : s.isPanning = false) :
    (Part003H.startDrawing false x y s).redoActions = [] := by
  unfold Part003H.startDrawing
  rw [if_neg (by simp [g1]), if_neg (by simp [g2])]

theorem Part003H.handleRedo_of_nil (s : Part003H.State) (h : s.redoActions = []) :
    Part003H.handleRedo s = s := by
  unfold Part003H.handleRedo
  rw [h]
  rfl

theorem Part003H.handleUndo_letterheadLoaded (s : Part003H.State) :
    (Part003H.handleUndo s).letterheadLoaded = s.letterheadLoaded := by
  unfold Part003H.handleUndo
  split <;> rfl

theorem Part003H.handleUndo_isPanning (s : Part003H.State) :
    (Part003H.handleUndo s).isPanning = s.isPanning := by
  unfold Part003H.handleUndo
  split <;> rfl

/-- C4: for every state whose committed sequence is non-empty, undo
followed by redo restores exactly the committed sequence (each stroke
with its tool, color, width, cap and point data) and leaves the redo
stack as it was, in both history-carrying revisions (part_004 `undo`
and `redo`, part_003 `handleUndo` and `handleRedo`). -/
theorem c4_undo_redo_inverse :
    (∀ s : Part004.State, s.actions ≠ [] →
      (Part004.redo (Part004.undo s)).actions = s.actions ∧
      (Part004.redo (Part004.undo s)).redos = s.redos) ∧
    (∀ s : Part003H.State, s.actions ≠ [] →
      (Part003H.handleRedo (Part003H.handleUndo s)).actions = s.actions ∧
      (Part003H.handleRedo (Part003H.handleUndo s)).redoActions = s.redoActions) := by
  constructor
  · intro s h
    unfold Part004.undo
    rw [List.getLast?_eq_getLast s.actions h]
    unfold Part004.redo
    simp only [List.getLast?_concat, List.dropLast_concat]
    exact ⟨List.dropLast_concat_getLast h, trivial⟩
  · intro s h
    unfold Part003H.handleUndo
    rw [List.getLast?_eq_getLast s.actions h]
    unfold Part003H.handleRedo
    simp only [List.getLast?_concat, List.dropLast_concat]
    exact ⟨List.dropLast_concat_getLast h, trivial⟩

/-- Witness for C4 at the concrete one-stroke states. -/
theorem c4_undo_redo_inverse_witness :
    ((Part004.redo (Part004.undo Part004.oneStrokeState)).actions = Part004.oneStrokeState.actions ∧
      (Part004.redo (Part004.undo Part004.oneStrokeState)).redos = Part004.oneStrokeState.redos) ∧
    ((Part003H.handleRedo (Part003H.handleUndo Part003H.oneStrokeState)).actions = Part003H.oneStrokeState.actions ∧
      (Part003H.handleRedo (Part003H.handleUndo Part003H.oneStrokeState)).redoActions = Part003H.oneStrokeState.redoActions) :=
  ⟨c4_undo_redo_inverse.1 Part004.oneStrokeState (by decide),
   c4_undo_redo_inverse.2 Part003H.oneStrokeState (by decide)⟩

/-- C5: a full drawing gesture that commits a stroke (a builder with at
least 2 points) leaves the redo stack empty, so after undo, commit,
redo the final redo is a no-op: the state is exactly the one just after
the commit. Holds in both history-carrying revisions; the redo stack is
cleared by the pointer-down (`startDraw` and `startDrawing`) and no
later step of the gesture touches it. -/
theorem c5_redo_invalidation (s4 : Part004.State) (p : Pt) (ps : List Pt)
    (h1 : ¬ s4.tool = Part004.DrawingTool.move) (h2 : s4.bgReady = true) (h3 : ps ≠ [])
    (s3 : Part003H.State) (q : Pt) (qs : List Pt)
    (g1 : s3.letterheadLoaded = true) (g2 : s3.isPanning = false) (g3 : qs ≠ []) :
    ((Part004.drawGesture p ps s4).redos = [] ∧
      Part004.redo (Part004.drawGesture p ps (Part004.undo s4)) =
        Part004.drawGesture p ps (Part004.undo s4)) ∧
    ((Part003H.drawGesture q qs s3).redoActions = [] ∧
      Part003H.handleRedo (Part003H.drawGesture q qs (Part003H.handleUndo s3)) =
        Part003H.drawGesture q qs (Part003H.handleUndo s3)) := by
  have key4 : ∀ t : Part004.State, ¬ t.tool = Part004.DrawingTool.move → t.bgReady = true →
      (Part004.drawGesture p ps t).redos = [] := by
    intro t ht hb
    unfold Part004.drawGesture
    rw [Part004.endDraw_redos, Part004.moveDraws_redos, Part004.startDraw_eq p.x p.y t ht hb]
  have key3 : ∀ t : Part003H.State, t.letterheadLoaded = true → t.isPanning = false →
      (Part003H.drawGesture q qs t).redoActions = [] := by
    intro t hl hp
    unfold Part003H.drawGesture
    rw [Part003H.stopDrawing_redoActions, Part003H.draws_redoActions,
      Part003H.startDrawing_redoActions q.x q.y t hl hp]
  refine ⟨⟨key4 s4 h1 h2, ?_⟩, ⟨key3 s3 g1 g2, ?_⟩⟩
  · exact Part004.redo_of_redos_nil _
      (key4 (Part004.undo s4) (by rw [Part004.undo_tool]; exact h1) (by rw [Part004.undo_bgReady]; exact h2))
  · exact Part003H.handleRedo_of_nil _
      (key3 (Part003H.handleUndo s3) (by rw [Part003H.handleUndo_letterheadLoaded]; exact g1)
        (by rw [Part003H.handleUndo_isPanning]; exact g2))

/-- Witness for C5 at the concrete one-stroke states with the gesture
from (10,10) to (50,50). -/
theorem c5_redo_invalidation_witness :
    ((Part004.drawGesture ⟨10, 10⟩ [⟨50, 50⟩] Part004.oneStrokeState).redos = [] ∧
      Part004.redo (Part004.drawGesture ⟨10, 10⟩ [⟨50, 50⟩] (Part004.undo Part004.oneStrokeState)) =
        Part004.drawGesture ⟨10, 10⟩ [⟨50, 50⟩] (Part004.undo Part004.oneStrokeState)) ∧
    ((Part003H.drawGesture ⟨10, 10⟩ [⟨50, 50⟩] Part003H.oneStrokeState).redoActions = [] ∧
      Part003H.handleRedo (Part003H.drawGesture ⟨10, 10⟩ [⟨50, 50⟩] (Part003H.handleUndo Part003H.oneStrokeState)) =
        Part003H.drawGesture ⟨10, 10⟩ [⟨50, 50⟩] (Part003H.handleUndo Part003H.oneStrokeState)) :=
  c5_redo_invalidation Part004.oneStrokeState ⟨10, 10⟩ [⟨50, 50⟩] (by decide) (by decide) (by decide)
    Part003H.oneStrokeState ⟨10, 10⟩ [⟨50, 50⟩] (by decide) (by decide) (by decide)

/-- C6: a gesture whose builder accumulated fewer than 2 points (a tap:
pointer down then pointer up with no move) never appends to the
committed history, in both history-carrying revisions; ending the
gesture is a silent no-op on the history. -/
theorem c6_short_stroke_discard (s4 : Part004.State) (p : Pt)
    (h1 : ¬ s4.tool = Part004.DrawingTool.move) (h2 : s4.bgReady = true)
    (s3 : Part003H.State) (q : Pt)
    (g1 : s3.letterheadLoaded = true) (g2 : s3.isPanning = false) :
    (Part004.endDraw (Part004.startDraw p.x p.y s4)).actions = s4.actions ∧
    (Part003H.stopDrawing (Part003H.startDrawing false q.x q.y s3)).actions = s3.actions := by
  constructor
  · rw [Part004.startDraw_eq p.x p.y s4 h1 h2]
    unfold Part004.endDraw
    simp [Part004.newAction]
  · unfold Part003H.startDrawing
    rw [if_neg (by simp [g1]), if_neg (by simp [g2])]
    unfold Part003H.stopDrawing
    simp [g2]

/-- Witness for C6 at the concrete ready states with a tap at (10,10). -/
theorem c6_short_stroke_discard_witness :
    (Part004.endDraw (Part004.startDraw (10 : ℚ) (10 : ℚ) Part004.readyState)).actions = Part004.readyState.actions ∧
    (Part003H.stopDrawing (Part003H.startDrawing false (10 : ℚ) (10 : ℚ) Part003H.readyState)).actions = Part003H.readyState.actions :=
  c6_short_stroke_discard Part004.readyState ⟨10, 10⟩ (by decide) (by decide)
    Part003H.readyState ⟨10, 10⟩ (by decide) (by decide)

/-- C10: the redo stack is emptied at the pointer-down that begins a
stroke (`startDraw` in part_004, `startDrawing` in part_003), while
ending a gesture never touches the redo stack; consequently even a tap
whose builder is discarded for having fewer than 2 points leaves the
redo stack empty, a following redo is a no-op, and the history is
unchanged. -/
theorem c10_redo_cleared_at_pointer_down (s4 : Part004.State) (p : Pt)
    (h1 : ¬ s4.tool = Part004.DrawingTool.move) (h2 : s4.bgReady = true)
    (t4 : Part004.State)
    (s3 : Part003H.State) (q : Pt)
    (g1 : s3.letterheadLoaded = true) (g2 : s3.isPanning = false)
    (t3 : Part003H.State) :
    (Part004.startDraw p.x p.y s4).redos = [] ∧
    (Part004.endDraw t4).redos = t4.redos ∧
    ((Part004.endDraw (Part004.startDraw p.x p.y s4)).redos = [] ∧
      Part004.redo (Part004.endDraw (Part004.startDraw p.x p.y s4)) =
        Part004.endDraw (Part004.startDraw p.x p.y s4) ∧
      (Part004.endDraw (Part004.startDraw p.x p.y s4)).actions = s4.actions) ∧
    (Part003H.startDrawing false q.x q.y s3).redoActions = [] ∧
    (Part003H.stopDrawing t3).redoActions = t3.redoActions := by
  have hs : (Part004.startDraw p.x p.y s4).redos = [] := by
    rw [Part004.startDraw_eq p.x p.y s4 h1 h2]
  have htap : (Part004.endDraw (Part004.startDraw p.x p.y s4)).redos = [] := by
    rw [Part004.endDraw_redos]
    exact hs
  refine ⟨hs, Part004.endDraw_redos t4, ⟨htap, Part004.redo_of_redos_nil _ htap, ?_⟩,
    Part003H.startDrawing_redoActions q.x q.y s3 g1 g2, Part003H.stopDrawing_redoActions t3⟩
  rw [Part004.startDraw_eq p.x p.y s4 h1 h2]
  unfold Part004.endDraw
  simp [Part004.newAction]

/-- Witness for C10 at the concrete states: a tap at (10,10) from the
one-stroke state that also has a pending redo entry. -/
theorem c10_redo_cleared_at_pointer_down_witness :
    (Part004.startDraw (10 : ℚ) (10 : ℚ) Part004.oneStrokeState).redos = [] ∧
    (Part004.endDraw Part004.readyState).redos = Part004.readyState.redos ∧
    ((Part004.endDraw (Part004.startDraw (10 : ℚ) (10 : ℚ) Part004.oneStrokeState)).redos = [] ∧
      Part004.redo (Part004.endDraw (Part004.startDraw (10 : ℚ) (10 : ℚ) Part004.oneStrokeState)) =
        Part004.endDraw (Part004.startDraw (10 : ℚ) (10 : ℚ) Part004.oneStrokeState) ∧
      (Part004.endDraw (Part004.startDraw (10 : ℚ) (10 : ℚ) Part004.oneStrokeState)).actions =
        Part004.oneStrokeState.actions) ∧
    (Part003H.startDrawing false (10 : ℚ) (10 : ℚ) Part003H.oneStrokeState).redoActions = [] ∧
    (Part003H.stopDrawing Part003H.readyState).redoActions = Part003H.readyState.redoActions :=
  c10_redo_cleared_at_pointer_down Part004.oneStrokeState ⟨10, 10⟩ (by decide) (by decide)
    Part004.readyState Part003H.oneStrokeState ⟨10, 10⟩ (by decide) (by decide) Part003H.readyState

theorem consecSegs_cons_cons (x y : Pt) (l : List Pt) :
    consecSegs (x :: y :: l) = ⟨x, y⟩ :: consecSegs (y :: l) := by
  simp [consecSegs]

theorem Part004.moveDraw_eq (sx sy : ℚ) (s : Part004.State) (a : DrawAction) (q : Pt)
    (htool : ¬ s.tool = .move) (hdraw : s.isDrawing = true) (hcur : s.current = some a)
    (hlast : a.points.getLast? = some q) :
    Part004.moveDraw sx sy s =
      { s with current := some { a with points := a.points ++ [Part004.toCanvas s sx sy] }
               canvasInk := s.canvasInk ++ [⟨q, Part004.toCanvas s sx sy⟩] } := by
  unfold Part004.moveDraw
  rw [if_neg (by simp [htool]), if_neg (by simp [hdraw]), hcur]
  simp [hlast]

/-- While a stroke is in progress, each `moveDraw` appends one point to
the builder and paints one segment: over a whole move sequence the
canvas gains exactly the polyline from the last path position through
the mapped points, the builder gains the mapped points, and the
history, redo stack, transform and tool state are untouched. -/
theorem Part004.moveDraws_spec (ps : List Pt) (s : Part004.State) (a : DrawAction) (q : Pt)
    (htool : ¬ s.tool = .move) (hdraw : s.isDrawing = true) (hcur : s.current = some a)
    (hlast : a.points.getLast? = some q) :
    (Part004.moveDraws ps s).canvasInk
        = s.canvasInk ++ consecSegs (q :: ps.map fun p => Part004.toCanvas s p.x p.y) ∧
    (Part004.moveDraws ps s).current
        = some { a with points := a.points ++ ps.map fun p => Part004.toCanvas s p.x p.y } ∧
    (Part004.moveDraws ps s).isDrawing = true := by
  induction ps generalizing s a q with
  | nil =>
    refine ⟨by simp [Part004.moveDraws, consecSegs], ?_, hdraw⟩
    simpa [Part004.moveDraws] using hcur
  | cons p ps ih =>
    rw [Part004.moveDraws_cons, Part004.moveDraw_eq p.x p.y s a q htool hdraw hcur hlast]
    have ih2 := ih { s with current := some { a with points := a.points ++ [Part004.toCanvas s p.x p.y] }
                            canvasInk := s.canvasInk ++ [⟨q, Part004.toCanvas s p.x p.y⟩] }
      { a with points := a.points ++ [Part004.toCanvas s p.x p.y] }
      (Part004.toCanvas s p.x p.y) htool hdraw rfl (List.getLast?_concat a.points)
    refine ⟨?_, ?_, ih2.2.2⟩
    · rw [ih2.1]
      simp [consecSegs_cons_cons, Part004.toCanvas]
    · rw [ih2.2.1]
      simp [Part004.toCanvas]

/-- C2: evaluation of the pinch-interrupt scenario on the part_004
code. A pen stroke is started at (10,10) and extended to (50,50); a
second finger then touches down (entering the two-finger state); when
the gesture ends, the handler bound to onTouchEnd (`endDraw`) finds
`isDrawing` still set and the builder still present, so the partially
accumulated stroke IS appended to the committed history, contradicting
the claim that it is never committed. -/
theorem c2_pinch_interrupt_commits_partial_stroke :
    (Part004.onTouchStartTwo ⟨100, 100⟩ 5 Part004.midStrokeState).isDrawing = true ∧
    Part004.pinchInterruptRun.actions =
      [{ tool := .pen, points := [⟨10, 10⟩, ⟨50, 50⟩], color := "#000000"
         lineWidth := 2, penStyle := .round }] ∧
    Part004.pinchInterruptRun.actions ≠ [] := by
  have hrun : Part004.pinchInterruptRun.actions =
      [{ tool := .pen, points := [⟨10, 10⟩, ⟨50, 50⟩], color := "#000000"
         lineWidth := 2, penStyle := .round }] := by
    simp only [Part004.pinchInterruptRun, Part004.midStrokeState, Part004.onTouchStartTwo,
      Part004.onTouchMoveOne, Part004.onTouchStartOne, Part004.startDraw, Part004.moveDraw,
      Part004.endDraw, Part004.newAction, Part004.toCanvas, Part004.readyState,
      Part004.DrawingTool.toInk, reduceIte, reduceCtorEq, List.getLast?, List.getLast,
      List.length_cons, List.length_nil, List.length_append, DrawAction.mk.injEq,
      Pt.mk.injEq, List.cons.injEq, List.cons_append, List.nil_append,
      false_and, and_false, and_self, if_false, if_true]
    norm_num
  exact ⟨rfl, hrun, by rw [hrun]; simp⟩

/-- Counterexample to C3 on the part_004 code: in the middle of a pen
stroke from (10,10) to (50,50) nothing is committed yet, but the
segment is already painted on the drawing canvas, and `save` composites
the drawing canvas into the export, so the exported ink differs from
the replay of the committed strokes. -/
theorem c3_counterexample_midstroke_ink_exported :
    Part004.midStrokeState.isDrawing = true ∧
    Part004.midStrokeState.actions = [] ∧
    Part004.exportInk Part004.midStrokeState = [⟨⟨10, 10⟩, ⟨50, 50⟩⟩] ∧
    Part004.exportInk Part004.midStrokeState ≠ Part004.replay Part004.midStrokeState.actions := by
  have hact : Part004.midStrokeState.actions = [] := by
    simp only [Part004.midStrokeState, Part004.onTouchMoveOne, Part004.onTouchStartOne,
      Part004.startDraw, Part004.moveDraw, Part004.newAction, Part004.toCanvas,
      Part004.readyState, Part004.DrawingTool.toInk, reduceIte, reduceCtorEq,
      List.getLast?, List.getLast, false_and, and_false, and_self, if_false, if_true]
  have hink : Part004.exportInk Part004.midStrokeState = [⟨⟨10, 10⟩, ⟨50, 50⟩⟩] := by
    simp only [Part004.exportInk, Part004.midStrokeState, Part004.onTouchMoveOne,
      Part004.onTouchStartOne, Part004.startDraw, Part004.moveDraw, Part004.newAction,
      Part004.toCanvas, Part004.readyState, Part004.DrawingTool.toInk, reduceIte,
      reduceCtorEq, List.getLast?, List.getLast, Seg.mk.injEq, Pt.mk.injEq,
      List.cons.injEq, List.cons_append, List.nil_append,
      false_and, and_false, and_self, if_false, if_true]
    norm_num
  refine ⟨rfl, hact, hink, ?_⟩
  rw [hact, hink]
  simp [Part004.replay]

/-- C3 amended: invoking save in the middle of a stroke exports the ink
of the committed strokes PLUS the segments of the in-progress stroke
painted so far; the in-progress stroke is excluded from the committed
history (until the gesture ends) but its ink is not excluded from the
exported bitmap. -/
theorem c3_amended_midstroke_export (s : Part004.State) (p0 : Pt) (ps : List Pt)
    (h1 : ¬ s.tool = Part004.DrawingTool.move) (h2 : s.bgReady = true)
    (hclean : s.canvasInk = Part004.replay s.actions) :
    Part004.exportInk (Part004.moveDraws ps (Part004.startDraw p0.x p0.y s))
        = Part004.replay s.actions
          ++ consecSegs ((p0 :: ps).map fun p => Part004.toCanvas s p.x p.y) ∧
    (Part004.moveDraws ps (Part004.startDraw p0.x p0.y s)).actions = s.actions := by
  constructor
  · rw [Part004.exportInk]
    rw [Part004.startDraw_eq p0.x p0.y s h1 h2]
    have hspec := Part004.moveDraws_spec ps
      { s with isDrawing := true, current := some (Part004.newAction s p0.x p0.y), redos := [] }
      (Part004.newAction s p0.x p0.y) (Part004.toCanvas s p0.x p0.y)
      h1 rfl rfl rfl
    rw [hspec.1, hclean]
    simp [Part004.toCanvas]
  · rw [Part004.moveDraws_actions, Part004.startDraw_eq p0.x p0.y s h1 h2]

theorem Tsx.step_dims (op : Tsx.Op) (s : Tsx.State) :
    (Tsx.step op s).width = s.width ∧ (Tsx.step op s).height = s.height := by
  cases op <;>
    simp only [Tsx.step, Tsx.bgLoaded, Tsx.handleWheel, Tsx.startDrawing, Tsx.draw,
      Tsx.stopDrawing, Tsx.handleTouchStartOne, Tsx.handleTouchStartTwo,
      Tsx.handleTouchMoveOnePan, Tsx.handleTouchMoveTwo, Tsx.handleTouchEnd,
      Tsx.clearCanvas] <;>
    (repeat' split) <;>
    first
      | trivial
      | exact ⟨by trivial, by trivial⟩

theorem Tsx.applyOps_dims (ops : List Tsx.Op) (s : Tsx.State) :
    (Tsx.applyOps ops s).width = s.width ∧ (Tsx.applyOps ops s).height = s.height := by
  induction ops generalizing s with
  | nil => exact ⟨rfl, rfl⟩
  | cons op ops ih =>
    have h1 := Tsx.step_dims op s
    have h2 := ih (Tsx.step op s)
    exact ⟨h2.1.trans h1.1, h2.2.trans h1.2⟩

/-- C1: for every event sequence applied to the freshly initialised
prescription-canvas.tsx component (any scale and pan in effect at the
moment of saving, any stroke and gesture activity), the bitmap that
`handleSaveClick` exports has the pixel dimensions of the fixed logical
canvas, 800 x 1100, because no handler ever writes the canvas width or
height and the pan and zoom live only in the CSS transform. -/
theorem c1_export_resolution_invariance (ops : List Tsx.Op) :
    Tsx.exportDims (Tsx.applyOps ops Tsx.initState) = (800, 1100) := by
  have h := Tsx.applyOps_dims ops Tsx.initState
  unfold Tsx.exportDims
  rw [h.1, h.2]
  rfl

theorem Tsx.step_scale (op : Tsx.Op) (s : Tsx.State)
    (h : 1 / 2 ≤ s.scale ∧ s.scale ≤ 3) :
    1 / 2 ≤ (Tsx.step op s).scale ∧ (Tsx.step op s).scale ≤ 3 := by
  cases op <;>
    simp only [Tsx.step, Tsx.bgLoaded, Tsx.handleWheel, Tsx.startDrawing, Tsx.draw,
      Tsx.stopDrawing, Tsx.handleTouchStartOne, Tsx.handleTouchStartTwo,
      Tsx.handleTouchMoveOnePan, Tsx.handleTouchMoveTwo, Tsx.handleTouchEnd,
      Tsx.clearCanvas] <;>
    (repeat' split) <;>
    first
      | exact h
      | exact ⟨le_max_left _ _, max_le (by norm_num) (min_le_left _ _)⟩
      | exact ⟨by norm_num, by norm_num⟩

theorem Tsx.applyOps_scale (ops : List Tsx.Op) (s : Tsx.State)
    (h : 1 / 2 ≤ s.scale ∧ s.scale ≤ 3) :
    1 / 2 ≤ (Tsx.applyOps ops s).scale ∧ (Tsx.applyOps ops s).scale ≤ 3 := by
  induction ops generalizing s with
  | nil => exact h
  | cons op ops ih => exact ih (Tsx.step op s) (Tsx.step_scale op s h)

theorem Part003.pinch_step_scale (op : Part003.Op) (s : Part003.State)
    (h : Part003.minScale ≤ s.scale ∧ s.scale ≤ Part003.maxScale) :
    Part003.minScale ≤ (Part003.step op s).scale ∧
      (Part003.step op s).scale ≤ Part003.maxScale := by
  cases op <;>
    simp only [Part003.step, Part003.bgLoaded, Part003.handleTouchStartTwo,
      Part003.handleTouchMovePinch, Part003.handleTouchEnd, Part003.clearCanvas] <;>
    (repeat' split) <;>
    first
      | exact h
      | exact ⟨le_max_left _ _,
          max_le (by norm_num [Part003.minScale, Part003.maxScale]) (min_le_left _ _)⟩
      | exact ⟨by norm_num [Part003.minScale], by norm_num [Part003.maxScale]⟩

theorem Part003.pinch_applyOps_scale (ops : List Part003.Op) (s : Part003.State)
    (h : Part003.minScale ≤ s.scale ∧ s.scale ≤ Part003.maxScale) :
    Part003.minScale ≤ (Part003.applyOps ops s).scale ∧
      (Part003.applyOps ops s).scale ≤ Part003.maxScale := by
  induction ops generalizing s with
  | nil => exact h
  | cons op ops ih => exact ih (Part003.step op s) (Part003.pinch_step_scale op s h)

/-- C7: under every sequence of zoom operations (mouse-wheel steps and
pinch updates with arbitrary measured distances) the scale stays inside
the configured bounds: 0.5 to 3 in prescription-canvas.tsx, and
minScale = 0.3 to maxScale = 5 in the first part_003 component; every
zoom handler clamps before assigning and no operation can escape the
interval. -/
theorem c7_scale_clamped :
    (∀ ops : List Tsx.Op, 1 / 2 ≤ (Tsx.applyOps ops Tsx.initState).scale ∧
      (Tsx.applyOps ops Tsx.initState).scale ≤ 3) ∧
    (∀ ops : List Part003.Op,
      Part003.minScale ≤ (Part003.applyOps ops Part003.initState).scale ∧
      (Part003.applyOps ops Part003.initState).scale ≤ Part003.maxScale) :=
  ⟨fun ops => Tsx.applyOps_scale ops Tsx.initState (by norm_num [Tsx.initState]),
   fun ops => Part003.pinch_applyOps_scale ops Part003.initState
     (by norm_num [Part003.initState, Part003.minScale, Part003.maxScale])⟩

/-- C9: a confirmed clear resets the view transform in the two
revisions whose clearCanvas does so (prescription-canvas.tsx and the
first part_003 component): afterwards the scale is 1 and the pan offset
is (0,0) whatever transform was in effect; and in the history-based
revisions (part_004 and the second part_003 component) a confirmed
clear empties both the committed and the redo stacks. -/
theorem c9_clear_resets_view :
    (∀ s : Tsx.State, (Tsx.clearCanvas true s).scale = 1 ∧
      (Tsx.clearCanvas true s).panOffset = ⟨0, 0⟩) ∧
    (∀ s : Part003.State, (Part003.clearCanvas true s).scale = 1 ∧
      (Part003.clearCanvas true s).panOffset = ⟨0, 0⟩) ∧
    (∀ s : Part004.State, (Part004.clearCanvas true s).actions = [] ∧
      (Part004.clearCanvas true s).redos = []) ∧
    (∀ s : Part003H.State, (Part003H.clearCanvas true s).actions = [] ∧
      (Part003H.clearCanvas true s).redoActions = []) :=
  ⟨fun _ => ⟨rfl, rfl⟩, fun _ => ⟨rfl, rfl⟩, fun _ => ⟨rfl, rfl⟩, fun _ => ⟨rfl, rfl⟩⟩

/-- C8: evaluation of the zoom-anchor scenario on the
prescription-canvas.tsx code. With the canvas laid out at (10,20) in
the viewport, identity transform, the logical point under the cursor
(110,120) is (100,100); after one wheel zoom-in step at that cursor the
new scale is 11/10 but the recomputed pan offset is expressed in
absolute viewport coordinates while the element is positioned at its
layout origin plus the pan, so the anchor point is rendered at
(120,140): it has moved by the layout origin, contradicting the claim
that it does not move. -/
theorem c8_wheel_anchor_not_invariant :
    Tsx.toViewport Tsx.c8Layout Tsx.c8State Tsx.c8Anchor = ⟨110, 120⟩ ∧
    Tsx.c8After.scale = 11 / 10 ∧
    Tsx.toViewport Tsx.c8Layout Tsx.c8After Tsx.c8Anchor = ⟨120, 140⟩ ∧
    ¬ Tsx.toViewport Tsx.c8Layout Tsx.c8After Tsx.c8Anchor = ⟨110, 120⟩ := by
  have hanchor : Tsx.c8Anchor = ⟨100, 100⟩ := by
    norm_num [Tsx.c8Anchor, Tsx.getLogicalCoords, Tsx.rectTopLeft, Tsx.c8Layout,
      Tsx.c8State, Tsx.initState, Pt.mk.injEq]
  have hafter : Tsx.c8After.scale = 11 / 10 ∧ Tsx.c8After.panOffset = ⟨0, 10⟩ := by
    norm_num [Tsx.c8After, Tsx.handleWheel, Tsx.getLogicalCoords, Tsx.rectTopLeft,
      Tsx.c8Layout, Tsx.c8State, Tsx.initState, Pt.mk.injEq, min_def, max_def]
  refine ⟨?_, hafter.1, ?_, ?_⟩
  · rw [hanchor]
    norm_num [Tsx.toViewport, Tsx.rectTopLeft, Tsx.c8Layout, Tsx.c8State, Tsx.initState,
      Pt.mk.injEq]
  · rw [hanchor]
    norm_num [Tsx.toViewport, Tsx.rectTopLeft, Tsx.c8Layout, hafter.1, hafter.2,
      Pt.mk.injEq]
  · rw [hanchor]
    norm_num [Tsx.toViewport, Tsx.rectTopLeft, Tsx.c8Layout, hafter.1, hafter.2,
      Pt.mk.injEq]

/-- Witness for the amended C3 at the ready state with the stroke from
(10,10) to (50,50). -/
theorem c3_amended_midstroke_export_witness :
    Part004.exportInk (Part004.moveDraws [⟨50, 50⟩]
        (Part004.startDraw (10 : ℚ) (10 : ℚ) Part004.readyState))
      = Part004.replay Part004.readyState.actions
        ++ consecSegs (([⟨10, 10⟩, ⟨50, 50⟩] : List Pt).map fun p =>
            Part004.toCanvas Part004.readyState p.x p.y) ∧
    (Part004.moveDraws [⟨50, 50⟩]
        (Part004.startDraw (10 : ℚ) (10 : ℚ) Part004.readyState)).actions
      = Part004.readyState.actions :=
  c3_amended_midstroke_export Part004.readyState ⟨10, 10⟩ [⟨50, 50⟩]
    (by decide) (by decide) (by decide)
